import Mathlib

/-!
Verification of the microlesson prompt-construction and generation core
(`microlesson.py`): the `QuestionConfig` model, the distribution string,
the prompt builder `generate_content_prompt`, and the orchestrator
`generate_learning_content` (backend selection by credential, single LLM
call, result validation, error wrapping).

Python exceptions are modelled by the `PyError` inductive; the effectful
orchestrator is modelled as a pure function that also returns the list of
effects (client construction, LLM invocation) it performed, with the LLM
client supplied as an explicit oracle argument.
-/

/-- Python exceptions raised by the module: `ValueError`, the pydantic
validation error raised by the `QuestionConfig` constructor, and the
generic `Exception` raised by the catch-all error wrapper. -/
inductive PyError where
  | valueError (msg : String)
  | validationError (msg : String)
  | exception (msg : String)
deriving DecidableEq

/-- Model of `QuestionConfig`: five integer question counts. Field defaults mirror
the pydantic `Field(default=...)` values (2, 2, 1, 0, 0). The pydantic
`ge=0` constraint is modelled by the smart constructor
`QuestionConfig.validate` below. -/
structure QuestionConfig where
  mcq : Int := 2
  true_false : Int := 2
  fill_blank : Int := 1
  matching : Int := 0
  ordering : Int := 0
deriving DecidableEq

/-- The configuration produced by the bare constructor call
`QuestionConfig()`: every field takes its declared default. -/
def QuestionConfig.default : QuestionConfig := {}

/-- The pydantic constructor: each of the five counts is validated against
`ge=0`; any negative count raises a validation error (the message text of
pydantic is not load-bearing and is abbreviated here). -/
def QuestionConfig.validate (mcq true_false fill_blank matching ordering : Int) :
    Except PyError QuestionConfig :=
  if mcq < 0 ∨ true_false < 0 ∨ fill_blank < 0 ∨ matching < 0 ∨ ordering < 0 then
    Except.error (PyError.validationError "Input should be greater than or equal to 0")
  else
    Except.ok ⟨mcq, true_false, fill_blank, matching, ordering⟩

/-- Model of `QuestionConfig.total_questions`: the sum of the five counts. -/
def QuestionConfig.total_questions (c : QuestionConfig) : Int :=
  c.mcq + c.true_false + c.fill_blank + c.matching + c.ordering

/-- Python `", ".join(parts)`. -/
def joinComma : List String → String
  | [] => ""
  | [p] => p
  | p :: ps => p ++ ", " ++ joinComma ps

/-- The `parts` list built inside `QuestionConfig.to_prompt_string`: one
entry per strictly positive count, appended in the fixed field order. -/
def QuestionConfig.parts (c : QuestionConfig) : List String :=
  let parts : List String := []
  let parts := if c.mcq > 0 then parts ++ [toString c.mcq ++ " Multiple Choice (MCQ)"] else parts
  let parts := if c.true_false > 0 then parts ++ [toString c.true_false ++ " True/False"] else parts
  let parts := if c.fill_blank > 0 then parts ++ [toString c.fill_blank ++ " Fill in the Blank"] else parts
  let parts := if c.matching > 0 then parts ++ [toString c.matching ++ " Matching"] else parts
  let parts := if c.ordering > 0 then parts ++ [toString c.ordering ++ " Ordering"] else parts
  parts

/-- Model of `QuestionConfig.to_prompt_string`: builds the parts list and joins it
with `", "`. -/
def QuestionConfig.to_prompt_string (c : QuestionConfig) : String :=
  joinComma c.parts

/-- Specification-side rendering of the distribution string, following the
spec text: the (count, label) pairs in the fixed order mcq, true_false,
fill_blank, matching, ordering, restricted to the types whose count is
nonzero, each formatted as "<count> <Label>", joined with ", ". -/
def distribution_spec (c : QuestionConfig) : String :=
  joinComma (List.map (fun p => toString p.1 ++ " " ++ p.2)
    (List.filter (fun p => p.1 ≠ 0)
      [(c.mcq, "Multiple Choice (MCQ)"), (c.true_false, "True/False"),
       (c.fill_blank, "Fill in the Blank"), (c.matching, "Matching"),
       (c.ordering, "Ordering")]))
def tplA : String := "\nYou are creating bite-sized learning content for Unrot, a mobile-first learning app where people spend 5 minutes learning something new every day. The content must compete with social media for attention—it should be vivid, clear, and feel like a rewarding, relevant conversation.\n\nInput:\nTopic: "

def tplB : String := "\nConcept: "

def tplC : String := "\nConcept Description: "

def tplD : String := "\n\nIMPORTANT: Understanding the Concept Description\nThe \"Concept Description\" is a teaser/hook—not the full scope of what should be covered. It sparks curiosity, but your job is to ensure readers walk away feeling, \"Whoa, I actually get this now!\" Your content should deliver:\nA multi-faceted, well-rounded understanding of the concept\nRelatable stories, analogies, or humor (no pop culture reference needed)\nInstant, practical \"aha\" moments—why does this really matter to people?\nConcrete, varied examples (not just textbook cases)\nIntuitive explanations that anyone can relate to\nAnswers to the \"So what?\" behind the idea\n\nContent Structure to Generate\n\n1. PRE-READ (The Hook & Revelation)\nGoal: Excite the reader and give them a solid, memorable understanding of the concept.\nRequirements:\nLength: 250–350 words max—fits comfortably on one phone screen, no endless scrolling\nTone: Imagine explaining something cool to a friend over a cup of chai—energetic, clear, never patronizing or stuffy\nStructure:\nStart with a story, everyday scenario, playful analogy, or a question that grabs curiosity in the first line.\nSpeaks directly to the reader (\"you,\" \"we\"), inviting them into a conversation.\nUnpack why this concept shows up everywhere and why it matters—cut to the heart, use humor or surprise.\nExplain using real-world examples drawn from different domains (media, daily life, business, etc.).\nEvery piece of jargon is instantly disarmed with a plain-English translation—no one\x27s left behind.\nAnticipate common questions and address them (sometimes as a rhetorical Q&A within the text).\nInsert at least one \"aha!\" insight or offbeat perspective—a fact, metaphor, or counterintuitive angle that makes readers pause and smile.\nKeep paragraphs and sentences short and punchy—never a wall of text.\nWhat to Avoid:\nDon\x27t just retell the concept description—expand, contextualize, and bring it alive\nDon\x27t over-focus on one example; always show variety and surprise\nDon\x27t use unexplained jargon; always break it down with analogies or humor\nWriting Style Guidance:\nUse \"you\"/\"we\" to make it direct and personal\nEvery section should feel like a fun, illuminating chat—not a dry lecture or a listicle\n\n2. QUESTIONS (Test, Teach, Entertain)\nGoal: Spark new discoveries—questions should teach as much as they test.\nRequirements:\nGenerate EXACTLY "

def tplE : String := " questions with the following distribution:\n"

def tplF : String := "\n\nQUESTION TYPE DETAILS:\n\nA) MULTIPLE CHOICE (MCQ):\n   - Traditional 4-option question\n   - Best for: scenarios, problem-solving, application\n   - Keep mobile-friendly: max 2 sentences, options under 15 words\n   - All wrong answers should be plausible\n\nB) TRUE/FALSE:\n   - Single statement to judge as true or false\n   - Best for: testing misconceptions, common myths, key facts\n   - Make it thought-provoking, not obvious\n\nC) FILL IN THE BLANK:\n   - Sentence with one _____ to complete\n   - Provide the correct answer + 3 plausible distractors\n   - Best for: terminology, key concepts, definitions\n   - Make the blank meaningful, not trivial\n   - IMPORTANT: Only use ONE blank per question\n\nD) MATCHING:\n   - 3-4 pairs to match (left item to right item)\n   - Best for: definitions, relationships, comparisons\n   - Keep each item short (under 10 words)\n\nE) ORDERING/SEQUENCING:\n   - 3-4 items to put in correct order\n   - Best for: processes, steps, chronology, priority\n   - Items should be clear and distinct\n\nEach question:\nTests core understanding of the concept\nReveals a fresh use-case, fact, or application not already covered\nAvoids trickery—every question is a chance to reveal another angle\nInclude for each:\nQuestion text (friendly, sometimes informal or story-driven)\nOptions or expected answer format\nCorrect answer\nExplanation that unpacks why this answer is right, brings in a misconception (if any), and adds a nugget of insight or analogy\n\n3. SUMMARY\nGoal: Leave readers with 3–5 pithy, memorable takeaways they can quickly recall and share.\nRequirements:\nEach bullet is concise (1–2 sentences), practical, and (where possible) tied to an analogy, daily life, or \"so what\" impact.\n\n4. TAGS (Optional but Recommended)\nGoal: Discovery and connection—help users relate this lesson to others.\nRequirements:\n3–5 relevant tags (concepts, applications, difficulty level, cross-topic ties)\n\nQuality Checklist\nBefore finalizing, verify:\n Pre-read is engaging from line one—feels like a conversation, not a textbook\n Fits one mobile screen (250–350 words)\n Multiple real-world examples, humor/analogies, and at least one \"aha\" fact or angle (pop culture not required)\n All jargon is demystified\n EXACTLY "

def tplG : String := " questions provided with the specified distribution\n Questions entertain and expand knowledge\n Each question\x27s explanation includes a story or extra insight\n Bullet summary makes key takeaways scannable and applicable\n The whole lesson is as fun and rewarding as scrolling your favorite news or meme page\n\nCreator Notes:\nMobile-first focus!\nEvery line competes for attention\n\"Friend test\": Would you enjoy explaining this out loud to someone who didn\x27t ask?\n\"Scroll test\": Is it so clear, punchy, and relevant you\x27d share it in a WhatsApp group?\n\"So What?\": Ensure at least one practical or perspective-changing takeaway\n"


/-- Model of `DYNAMIC_PROMPT_TEMPLATE.format(...)`: the template literal split at its
placeholder occurrences (in source order: topic, concept,
concept_description, total_questions, question_distribution,
total_questions) with the arguments substituted. -/
def formatTemplate (topic concept concept_description : String) (total_questions : Int)
    (question_distribution : String) : String :=
  tplA ++ topic ++ tplB ++ concept ++ tplC ++ concept_description ++
    tplD ++ toString total_questions ++ tplE ++ question_distribution ++
    tplF ++ toString total_questions ++ tplG

/-- Message of the `ValueError` raised on an all-zero configuration. -/
def emptyConfigMsg : String :=
  "Question configuration must have at least one question. All question counts are 0."

/-- Message of the `ValueError` raised when neither API key is configured. -/
def noApiKeyMsg : String :=
  "No API key found. Please configure OPENROUTER_API_KEY or CEREBRAS_API_KEY in secrets.toml or environment variables."

/-- Message of the `ValueError` raised when the LLM result is null or has no
`pre_read` attribute. -/
def emptyResponseMsg : String := "LLM returned empty or invalid response"

/-- Model of `generate_content_prompt`, instrumented: the second component records
whether the template-formatting step was performed. A `None` config is
replaced by the default; an all-zero total raises `ValueError` before any
formatting; otherwise the template is formatted with the five
substitutions. -/
def generate_content_prompt_run (topic concept concept_description : String)
    (question_config : Option QuestionConfig) : Except PyError String × Bool :=
  let qc := question_config.getD QuestionConfig.default
  if qc.total_questions = 0 then
    (Except.error (PyError.valueError emptyConfigMsg), false)
  else
    (Except.ok (formatTemplate topic concept concept_description
        qc.total_questions qc.to_prompt_string), true)

/-- Model of `generate_content_prompt`: the value returned (or error raised) by the
prompt builder. -/
def generate_content_prompt (topic concept concept_description : String)
    (question_config : Option QuestionConfig) : Except PyError String :=
  (generate_content_prompt_run topic concept concept_description question_config).1

/-- The two LLM backends `generate_learning_content` can select. -/
inductive Backend where
  | openrouter
  | cerebras
deriving DecidableEq

/-- Observable effects of the orchestrator: constructing the LLM client for
a backend, and issuing the LLM request to a backend. -/
inductive Event where
  | clientConstructed (b : Backend)
  | llmCalled (b : Backend)
deriving DecidableEq

/-- Arguments passed to `client.qna_engine.generate_questions` (the
`response_model=BiteSizedContent` argument is a type, not data, and is
implicit in the oracle's result type). -/
structure LLMCallArgs where
  topic : String
  concept : String
  num : Int
  prompt_template : String
deriving DecidableEq

/-- The raw object returned by the LLM client, as the orchestrator sees it:
the orchestrator inspects only nullness (`not result`) and the presence of
a `pre_read` attribute (`hasattr`), so the model keeps `pre_read` as an
optional attribute and treats every other field as opaque. -/
structure RawResult where
  pre_read : Option String
deriving DecidableEq

/-- The LLM client oracle: given the selected backend and the call
arguments, either raises (an exception message) or returns a possibly-null
raw result. -/
def LLMOracle : Type :=
  Backend → LLMCallArgs → Except String (Option RawResult)

/-- Python `pat in l` on character lists: `pat` occurs as a contiguous
sublist of `l`. -/
def listInfixB (pat : List Char) : List Char → Bool
  | [] => pat.isEmpty
  | a :: t => pat.isPrefixOf (a :: t) || listInfixB pat t

/-- Model of the `except` clause of `generate_learning_content`: prefixes the
message and appends a category hint chosen by case-insensitive substring
matching on the underlying message. -/
def wrapGenError (msg : String) : String :=
  let base := "Error in content generation: " ++ msg
  if listInfixB ("validation error").data msg.toLower.data then
    base ++ "\n\nThis usually means the LLM didn\x27t return properly formatted content. Please check your API key and try again."
  else if listInfixB ("api").data msg.toLower.data then
    base ++ "\n\nThis appears to be an API-related error. Please check your API key and internet connection."
  else base

/-- Model of `generate_learning_content`, with the credential values and the LLM
client as explicit inputs and the list of performed effects as an extra
output. Mirrors the source order: credential check and client
construction, then config defaulting, then prompt construction, then the
single LLM call inside try/except, then the null / `hasattr` result
check (whose `ValueError` is caught and wrapped by the same except
clause). -/
def generate_learning_content (openrouter_key cerebras_key : String)
    (topic concept concept_description : String)
    (question_config : Option QuestionConfig) (llm : LLMOracle) :
    Except PyError RawResult × List Event :=
  let backend : Option Backend :=
    if openrouter_key ≠ "" then some Backend.openrouter
    else if cerebras_key ≠ "" then some Backend.cerebras
    else none
  match backend with
  | none => (Except.error (PyError.valueError noApiKeyMsg), [])
  | some b =>
    let qc := question_config.getD QuestionConfig.default
    match generate_content_prompt topic concept concept_description (some qc) with
    | Except.error e => (Except.error e, [Event.clientConstructed b])
    | Except.ok prompt =>
      let trace := [Event.clientConstructed b, Event.llmCalled b]
      match llm b ⟨topic, concept, qc.total_questions, prompt⟩ with
      | Except.error msg =>
        (Except.error (PyError.exception (wrapGenError msg)), trace)
      | Except.ok none =>
        (Except.error (PyError.exception (wrapGenError emptyResponseMsg)), trace)
      | Except.ok (some r) =>
        if r.pre_read.isNone then
          (Except.error (PyError.exception (wrapGenError emptyResponseMsg)), trace)
        else
          (Except.ok r, trace)

/-- The backends of the LLM calls recorded in a trace. -/
def callsOf (tr : List Event) : List Backend :=
  tr.filterMap (fun e => match e with
    | Event.llmCalled b => some b
    | _ => none)

/-- Containment predicate: `t` occurs as a contiguous substring of `s`
(stated on the underlying character data). -/
def strContains (s t : String) : Prop := t.data <:+: s.data

/-- Stub LLM client returning a non-null result whose `pre_read` attribute
is present but holds the empty string. -/
def stubEmptyPreRead : LLMOracle := fun _ _ => Except.ok (some ⟨some ""⟩)

/-- String append is associative (via the underlying character data). -/
lemma string_append_assoc (a b c : String) : a ++ b ++ c = a ++ (b ++ c) :=
  String.ext (by simp [String.data_append])

lemma strContains_append_middle (u t v : String) : strContains (u ++ t ++ v) t := by
  unfold strContains
  rw [String.data_append, String.data_append]
  exact List.infix_append _ _ _

lemma strContains_trans {s t u : String} (hts : strContains s t) (hut : strContains t u) :
    strContains s u :=
  List.IsInfix.trans hut hts

/-- Every element of the joined list occurs as a substring of the join. -/
lemma strContains_joinComma : ∀ (ps : List String) (p : String), p ∈ ps →
    strContains (joinComma ps) p := by
  intro ps
  induction ps with
  | nil => intro p hp; cases hp
  | cons a t ih =>
    intro p hp
    cases t with
    | nil =>
      have hpa : p = a := by simpa using hp
      subst hpa
      exact ⟨[], [], by simp [joinComma]⟩
    | cons b t' =>
      have hj : joinComma (a :: b :: t') = a ++ ", " ++ joinComma (b :: t') := rfl
      rcases List.mem_cons.mp hp with hpa | hmem
      · subst hpa
        show p.data <:+: (joinComma (p :: b :: t')).data
        rw [hj, String.data_append, String.data_append]
        exact ⟨[], ", ".data ++ (joinComma (b :: t')).data, by simp⟩
      · have h1 := ih p hmem
        show p.data <:+: (joinComma (a :: b :: t')).data
        rw [hj, String.data_append, String.data_append]
        rcases h1 with ⟨u, v, huv⟩
        exact ⟨a.data ++ ", ".data ++ u, v, by rw [← huv]; simp⟩

/-- The complete effect trace of `generate_learning_content`: empty when no
credential is present; otherwise construction of the client for the
selected backend, followed by exactly one LLM call unless prompt
construction failed on an all-zero configuration. -/
lemma generate_trace (ok ck topic concept cd : String) (qc : Option QuestionConfig)
    (llm : LLMOracle) :
    (generate_learning_content ok ck topic concept cd qc llm).2 =
      match (if ok ≠ "" then some Backend.openrouter
             else if ck ≠ "" then some Backend.cerebras else none) with
      | none => []
      | some b =>
        if (qc.getD QuestionConfig.default).total_questions = 0 then
          [Event.clientConstructed b]
        else [Event.clientConstructed b, Event.llmCalled b] := by
  unfold generate_learning_content generate_content_prompt generate_content_prompt_run
  by_cases hok : ok = "" <;> by_cases hck : ck = "" <;>
    simp [hok, hck] <;>
    by_cases h0 : (qc.getD QuestionConfig.default).total_questions = 0 <;>
    simp [h0] <;> split <;> (try split) <;> simp

/-- Any result the orchestrator actually returns has a present `pre_read`
attribute (the code checks only presence, via `hasattr`). -/
lemma generate_ok_pre_read {ok ck topic concept cd : String} {qc : Option QuestionConfig}
    {llm : LLMOracle} {r : RawResult}
    (h : (generate_learning_content ok ck topic concept cd qc llm).1 = Except.ok r) :
    r.pre_read.isSome = true := by
  simp only [generate_learning_content] at h
  split at h
  · simp at h
  · split at h
    · simp at h
    · split at h
      · simp at h
      · simp at h
      · split at h
        · simp at h
        · simp at h
          subst h
          rename_i hpr
          cases hr : RawResult.pre_read _ <;> simp_all

/-- C1: for every QuestionConfig with non-negative integer counts, the
distribution string `to_prompt_string` lists exactly the types whose count
is nonzero, in the fixed order mcq, true_false, fill_blank, matching,
ordering, each formatted as "<count> <Label>" with the labels
"Multiple Choice (MCQ)", "True/False", "Fill in the Blank", "Matching",
"Ordering", joined with ", " (stated as agreement with the
specification-side rendering `distribution_spec`); in particular the
config (2, 2, 1, 0, 0) yields
"2 Multiple Choice (MCQ), 2 True/False, 1 Fill in the Blank". -/
theorem to_prompt_string_matches_spec (c : QuestionConfig)
    (h1 : 0 ≤ c.mcq) (h2 : 0 ≤ c.true_false) (h3 : 0 ≤ c.fill_blank)
    (h4 : 0 ≤ c.matching) (h5 : 0 ≤ c.ordering) :
    c.to_prompt_string = distribution_spec c ∧
    (⟨2, 2, 1, 0, 0⟩ : QuestionConfig).to_prompt_string =
      "2 Multiple Choice (MCQ), 2 True/False, 1 Fill in the Blank" := by
  refine ⟨?_, by decide⟩
  have l1 : " " ++ "Multiple Choice (MCQ)" = " Multiple Choice (MCQ)" := rfl
  have l2 : " " ++ "True/False" = " True/False" := rfl
  have l3 : " " ++ "Fill in the Blank" = " Fill in the Blank" := rfl
  have l4 : " " ++ "Matching" = " Matching" := rfl
  have l5 : " " ++ "Ordering" = " Ordering" := rfl
  have m1 : c.mcq = 0 ∨ (0 < c.mcq ∧ c.mcq ≠ 0) := by omega
  have m2 : c.true_false = 0 ∨ (0 < c.true_false ∧ c.true_false ≠ 0) := by omega
  have m3 : c.fill_blank = 0 ∨ (0 < c.fill_blank ∧ c.fill_blank ≠ 0) := by omega
  have m4 : c.matching = 0 ∨ (0 < c.matching ∧ c.matching ≠ 0) := by omega
  have m5 : c.ordering = 0 ∨ (0 < c.ordering ∧ c.ordering ≠ 0) := by omega
  unfold QuestionConfig.to_prompt_string QuestionConfig.parts distribution_spec
  rcases m1 with h | ⟨h, h'⟩ <;> rcases m2 with g | ⟨g, g'⟩ <;> rcases m3 with f | ⟨f, f'⟩ <;>
    rcases m4 with e | ⟨e, e'⟩ <;> rcases m5 with d | ⟨d, d'⟩ <;>
    simp_all [joinComma, string_append_assoc]

/-- Witness for C1: the theorem applied at the concrete config
(2, 2, 1, 0, 0). -/
theorem to_prompt_string_matches_spec_witness :
    (⟨2, 2, 1, 0, 0⟩ : QuestionConfig).to_prompt_string = distribution_spec ⟨2, 2, 1, 0, 0⟩ ∧
    (⟨2, 2, 1, 0, 0⟩ : QuestionConfig).to_prompt_string =
      "2 Multiple Choice (MCQ), 2 True/False, 1 Fill in the Blank" :=
  to_prompt_string_matches_spec ⟨2, 2, 1, 0, 0⟩ (by decide) (by decide) (by decide)
    (by decide) (by decide)

/-- C2: for every QuestionConfig whose total_questions is 0, the prompt
builder fails with the empty-configuration error (a ValueError carrying
the empty-configuration message) and performs no template formatting (the
instrumentation flag is false); for every config with total_questions at
least 1 it returns a prompt and does not raise this error. -/
theorem prompt_builder_empty_config (topic concept cd : String) (qc : QuestionConfig) :
    (qc.total_questions = 0 →
      generate_content_prompt_run topic concept cd (some qc) =
        (Except.error (PyError.valueError emptyConfigMsg), false)) ∧
    (1 ≤ qc.total_questions →
      ∃ s, generate_content_prompt_run topic concept cd (some qc) = (Except.ok s, true)) := by
  constructor
  · intro h
    simp [generate_content_prompt_run, h]
  · intro h
    have h0 : ¬ qc.total_questions = 0 := by omega
    exact ⟨formatTemplate topic concept cd qc.total_questions qc.to_prompt_string,
      by simp [generate_content_prompt_run, h0]⟩

/-- Witness for C2: the all-zero config is rejected without formatting and
the baseline config (2, 2, 1, 0, 0) is accepted. -/
theorem prompt_builder_empty_config_witness :
    generate_content_prompt_run "t" "c" "d" (some ⟨0, 0, 0, 0, 0⟩) =
      (Except.error (PyError.valueError emptyConfigMsg), false) ∧
    ∃ s, generate_content_prompt_run "t" "c" "d" (some ⟨2, 2, 1, 0, 0⟩) = (Except.ok s, true) :=
  ⟨(prompt_builder_empty_config "t" "c" "d" ⟨0, 0, 0, 0, 0⟩).1 (by decide),
   (prompt_builder_empty_config "t" "c" "d" ⟨2, 2, 1, 0, 0⟩).2 (by decide)⟩

/-- C3: when both the OpenRouter and the Cerebras credential resolve to
empty strings, generate_learning_content fails with the
missing-credentials ValueError, and its effect trace is empty: no LLM
client is constructed and no LLM request is attempted. -/
theorem generate_no_credentials (topic concept cd : String)
    (qc : Option QuestionConfig) (llm : LLMOracle) :
    generate_learning_content "" "" topic concept cd qc llm =
      (Except.error (PyError.valueError noApiKeyMsg), []) := rfl

/-- C4: for every QuestionConfig with total_questions at least 1, the
prompt returned by generate_content_prompt contains the decimal rendering
of total_questions as a substring, and contains every nonzero type label
of the distribution string (every entry of the parts list joined by
`to_prompt_string`) as a substring. -/
theorem prompt_contains_total_and_labels (topic concept cd : String) (c : QuestionConfig)
    (h : 1 ≤ c.total_questions) :
    ∃ s, generate_content_prompt topic concept cd (some c) = Except.ok s ∧
      strContains s (toString c.total_questions) ∧
      ∀ p ∈ c.parts, strContains s p := by
  have h0 : ¬ c.total_questions = 0 := by omega
  refine ⟨formatTemplate topic concept cd c.total_questions c.to_prompt_string, ?_, ?_, ?_⟩
  · simp [generate_content_prompt, generate_content_prompt_run, h0]
  · have hre : formatTemplate topic concept cd c.total_questions c.to_prompt_string =
        (tplA ++ topic ++ tplB ++ concept ++ tplC ++ cd ++ tplD) ++
          toString c.total_questions ++
          (tplE ++ c.to_prompt_string ++ tplF ++ toString c.total_questions ++ tplG) := by
      unfold formatTemplate
      simp [string_append_assoc]
    rw [hre]
    exact strContains_append_middle _ _ _
  · intro p hp
    have h1 := strContains_joinComma c.parts p hp
    have hre : formatTemplate topic concept cd c.total_questions c.to_prompt_string =
        (tplA ++ topic ++ tplB ++ concept ++ tplC ++ cd ++ tplD ++
          toString c.total_questions ++ tplE) ++ c.to_prompt_string ++
          (tplF ++ toString c.total_questions ++ tplG) := by
      unfold formatTemplate
      simp [string_append_assoc]
    have h2 : strContains (formatTemplate topic concept cd c.total_questions c.to_prompt_string)
        c.to_prompt_string := by
      rw [hre]
      exact strContains_append_middle _ _ _
    exact strContains_trans h2 h1

/-- Witness for C4: the theorem applied at the baseline config. -/
theorem prompt_contains_total_and_labels_witness :
    ∃ s, generate_content_prompt "t" "c" "d" (some ⟨2, 2, 1, 0, 0⟩) = Except.ok s ∧
      strContains s (toString (⟨2, 2, 1, 0, 0⟩ : QuestionConfig).total_questions) ∧
      ∀ p ∈ (⟨2, 2, 1, 0, 0⟩ : QuestionConfig).parts, strContains s p :=
  prompt_contains_total_and_labels "t" "c" "d" ⟨2, 2, 1, 0, 0⟩ (by decide)

/-- C5: generate_learning_content selects the backend by credential in
fixed priority order: every LLM call in the effect trace goes to
OpenRouter whenever the OpenRouter credential is non-empty (regardless of
the Cerebras credential) and to Cerebras otherwise; at most one LLM call
is ever made (no failover after a failed call); and with both credentials
empty the trace is empty. -/
theorem backend_selection_priority (ok ck topic concept cd : String)
    (qc : Option QuestionConfig) (llm : LLMOracle) :
    (callsOf (generate_learning_content ok ck topic concept cd qc llm).2).length ≤ 1 ∧
    (∀ b, b ∈ callsOf (generate_learning_content ok ck topic concept cd qc llm).2 →
      b = if ok = "" then Backend.cerebras else Backend.openrouter) ∧
    (ok = "" → ck = "" → (generate_learning_content ok ck topic concept cd qc llm).2 = []) := by
  have ht := generate_trace ok ck topic concept cd qc llm
  rw [ht]
  by_cases hok : ok = "" <;> by_cases hck : ck = "" <;>
    by_cases h0 : (qc.getD QuestionConfig.default).total_questions = 0 <;>
    simp [hok, hck, h0, callsOf]

/-- Witness for C5: with both credentials empty no effect is performed. -/
theorem backend_selection_priority_witness :
    (generate_learning_content "" "" "t" "c" "d" none (fun _ _ => Except.ok none)).2 = [] :=
  (backend_selection_priority "" "" "t" "c" "d" none (fun _ _ => Except.ok none)).2.2 rfl rfl

/-- C6 counterexample: the claim says a result whose pre_read is absent or
unpopulated is never returned to the caller, but the code only checks
`hasattr(result, "pre_read")`: with a stub client returning a non-null
result whose pre_read attribute is present but holds the empty string
(unpopulated), generate_learning_content returns that result to the
caller. -/
theorem empty_pre_read_returned :
    (generate_learning_content "k" "" "Psychology" "Growth Mindset" "why" none
        stubEmptyPreRead).1 = Except.ok ⟨some ""⟩ := rfl

/-- C6 amended: after a successful LLM call, generate_learning_content
checks that the result is non-null and exposes a pre_read attribute
(presence only, not that it is populated), and otherwise fails with the
empty-response error wrapped by the generic handler; a result whose
pre_read attribute is absent, or a null result, is never returned to the
caller. -/
theorem pre_read_attribute_check_amended :
    (∀ ok ck topic concept cd qc llm r,
      (generate_learning_content ok ck topic concept cd qc llm).1 = Except.ok r →
        r.pre_read.isSome = true) ∧
    (∀ topic concept cd,
      (generate_learning_content "k" "" topic concept cd none
          (fun _ _ => Except.ok none)).1 =
        Except.error (PyError.exception (wrapGenError emptyResponseMsg))) ∧
    (∀ topic concept cd,
      (generate_learning_content "k" "" topic concept cd none
          (fun _ _ => Except.ok (some ⟨none⟩))).1 =
        Except.error (PyError.exception (wrapGenError emptyResponseMsg))) :=
  ⟨fun _ _ _ _ _ _ _ _ h => generate_ok_pre_read h, fun _ _ _ => rfl, fun _ _ _ => rfl⟩

/-- Witness for C6 amended: a returned result has a present pre_read
attribute, obtained by applying the theorem at a concrete stub client. -/
theorem pre_read_attribute_check_amended_witness :
    (⟨some "x"⟩ : RawResult).pre_read.isSome = true :=
  pre_read_attribute_check_amended.1 "k" "" "t" "c" "d" none
    (fun _ _ => Except.ok (some ⟨some "x"⟩)) ⟨some "x"⟩ rfl

/-- C7: total_questions is the exact sum of the five counts, and the sum
is invariant under any permutation of the five counts (commutativity and
associativity of addition). -/
theorem total_questions_is_sum (c : QuestionConfig) :
    c.total_questions = c.mcq + c.true_false + c.fill_blank + c.matching + c.ordering ∧
    ∀ l : List Int, l.Perm [c.mcq, c.true_false, c.fill_blank, c.matching, c.ordering] →
      l.sum = c.total_questions := by
  refine ⟨rfl, fun l h => ?_⟩
  rw [h.sum_eq]
  simp [QuestionConfig.total_questions]
  ring

/-- Witness for C7: a reversed assignment order of the baseline counts
sums to the same total. -/
theorem total_questions_is_sum_witness :
    ([0, 0, 1, 2, 2] : List Int).sum = (⟨2, 2, 1, 0, 0⟩ : QuestionConfig).total_questions :=
  (total_questions_is_sum ⟨2, 2, 1, 0, 0⟩).2 [0, 0, 1, 2, 2] (by decide)

/-- C8: constructing a QuestionConfig with any negative count fails with
the pydantic validation error (the invalid-configuration error), while
construction with all counts non-negative succeeds with exactly those
counts; validation happens at construction, before any prompt building or
network call. -/
theorem negative_count_rejected (a b c d e : Int) :
    ((a < 0 ∨ b < 0 ∨ c < 0 ∨ d < 0 ∨ e < 0) →
      QuestionConfig.validate a b c d e =
        Except.error (PyError.validationError "Input should be greater than or equal to 0")) ∧
    (0 ≤ a → 0 ≤ b → 0 ≤ c → 0 ≤ d → 0 ≤ e →
      QuestionConfig.validate a b c d e = Except.ok ⟨a, b, c, d, e⟩) := by
  constructor
  · intro h
    simp [QuestionConfig.validate, h]
  · intro h1 h2 h3 h4 h5
    have h0 : ¬ (a < 0 ∨ b < 0 ∨ c < 0 ∨ d < 0 ∨ e < 0) := by omega
    simp [QuestionConfig.validate, h0]

/-- Witness for C8: a negative mcq count is rejected and the baseline
counts are accepted. -/
theorem negative_count_rejected_witness :
    QuestionConfig.validate (-1) 0 0 0 0 =
      Except.error (PyError.validationError "Input should be greater than or equal to 0") ∧
    QuestionConfig.validate 2 2 1 0 0 = Except.ok ⟨2, 2, 1, 0, 0⟩ :=
  ⟨(negative_count_rejected (-1) 0 0 0 0).1 (by decide),
   (negative_count_rejected 2 2 1 0 0).2 (by decide) (by decide) (by decide) (by decide)
     (by decide)⟩

/-- C9: when the question_config argument is omitted (None), both the
prompt builder and the orchestrator use the baseline QuestionConfig
(2 mcq, 2 true_false, 1 fill_blank, 0 matching, 0 ordering), whose
total_questions is 5: with a None config each function behaves exactly as
with the default config. -/
theorem default_config_baseline :
    QuestionConfig.default = ⟨2, 2, 1, 0, 0⟩ ∧
    QuestionConfig.default.total_questions = 5 ∧
    (∀ topic concept cd, generate_content_prompt_run topic concept cd none =
        generate_content_prompt_run topic concept cd (some QuestionConfig.default)) ∧
    (∀ ok ck topic concept cd llm,
      generate_learning_content ok ck topic concept cd none llm =
        generate_learning_content ok ck topic concept cd (some QuestionConfig.default) llm) :=
  ⟨rfl, rfl, fun _ _ _ => rfl, fun _ _ _ _ _ _ => rfl⟩

/-- C10: for the QuestionConfig in which all five counts are zero,
to_prompt_string returns the empty string (it does not raise), even
though the prompt builder rejects such a config with the
empty-configuration error. -/
theorem all_zero_to_prompt_string_empty :
    (⟨0, 0, 0, 0, 0⟩ : QuestionConfig).to_prompt_string = "" ∧
    ∀ topic concept cd,
      generate_content_prompt topic concept cd (some ⟨0, 0, 0, 0, 0⟩) =
        Except.error (PyError.valueError emptyConfigMsg) :=
  ⟨rfl, fun _ _ _ => rfl⟩
